import Mathlib

/-!
Shallow embedding of the Mushroom CRM Flask backend (`backend/app.py`) and
verification of its specification claims.

Modelling conventions:
* SQLAlchemy tables are Lean lists of records; `filter_by(...).first()` is
  `List.find?`, `filter_by(...).all()` is `List.filter`, a bulk
  `.delete()` is `List.filter` with the negated predicate, `db.session.add`
  appends, mutating the object returned by `first()` and committing is
  `updateFirst` (rewrite the first matching element in place), and
  `db.session.delete(obj)` is `eraseFirst` (remove the first matching
  element, i.e. the row `first()` found).
* Python floats used as monetary amounts and quantities are modelled as ℚ.
* `datetime` values are modelled as a year/month/day/hour/minute/second
  record compared lexicographically; `datetime.utcnow()` is an explicit
  `now` argument to each handler.
* A JSON body is an `Option` of a record whose fields are `Option`s
  (`none` = key absent or null); Python truthiness of `data.get(k)` is the
  `truthy*` functions (`None`, `0`, `""`, `[]` are falsy).
* bcrypt hash verification (`User.check_password`) is modelled as equality
  of the supplied password with the stored credential string.
* Handlers return their HTTP status code, the resulting store, and (where
  the route serializes an entity) the affected row.
* Auto-increment primary keys are modelled as `nextId` (max existing id
  plus one).
-/

namespace CRM

/-- Model of `datetime.datetime` (UTC, microseconds dropped). -/
structure DateTime where
  year : Nat
  month : Nat
  day : Nat
  hour : Nat
  minute : Nat
  second : Nat
deriving DecidableEq, Repr

/-- Lexicographic `a <= b` on datetimes, the order the database uses for
`Sale.date >= start_of_month` comparisons. -/
def DateTime.ble (a b : DateTime) : Bool :=
  if a.year < b.year then true
  else if b.year < a.year then false
  else if a.month < b.month then true
  else if b.month < a.month then false
  else if a.day < b.day then true
  else if b.day < a.day then false
  else if a.hour < b.hour then true
  else if b.hour < a.hour then false
  else if a.minute < b.minute then true
  else if b.minute < a.minute then false
  else a.second ≤ b.second

/-- Model of `today.replace(day=1, hour=0, minute=0, second=0, microsecond=0)` in
`get_dashboard_analytics`. -/
def startOfMonth (t : DateTime) : DateTime :=
  { t with day := 1, hour := 0, minute := 0, second := 0 }

/-- Python truthiness of an optional string (`None` and `""` are falsy). -/
def truthyStr : Option String → Bool
  | none => false
  | some s => s ≠ ""

/-- Python truthiness of an optional number (`None` and `0` are falsy). -/
def truthyNum : Option ℚ → Bool
  | none => false
  | some q => q ≠ 0

/-- Python truthiness of an optional integer id (`None` and `0` are falsy). -/
def truthyNat : Option Nat → Bool
  | none => false
  | some n => n ≠ 0

/-- Python truthiness of an optional list (`None` and `[]` are falsy). -/
def truthyList : Option (List String) → Bool
  | none => false
  | some l => !l.isEmpty

/-- Split a character list at every occurrence of `c`
(`"".split(c)` is `[""]`), the semantics of Python `str.split` with a
one-character separator. -/
def splitChar (c : Char) : List Char → List (List Char)
  | [] => [[]]
  | x :: xs =>
    match splitChar c xs with
    | [] => [[x]]
    | y :: ys => if x = c then [] :: y :: ys else (x :: y) :: ys

/-- Python `s.split(c)` for a one-character separator `c`. -/
def pySplit (c : Char) (s : String) : List String :=
  (splitChar c s.toList).map (fun cs => String.mk cs)

/-- Rewrite the first element satisfying `p` by `f`: the effect of mutating
the object returned by `.first()` and committing the session. -/
def updateFirst (p : α → Bool) (f : α → α) : List α → List α
  | [] => []
  | x :: xs => if p x then f x :: xs else x :: updateFirst p f xs

/-- Remove the first element satisfying `p`: the effect of
`db.session.delete(obj)` on the row `.first()` found. -/
def eraseFirst (p : α → Bool) : List α → List α
  | [] => []
  | x :: xs => if p x then xs else x :: eraseFirst p xs

/-- Auto-increment primary key: one past the largest id in use. -/
def nextId (ids : List Nat) : Nat := ids.foldr Nat.max 0 + 1

/-- Row of the `users` table.  `password` holds the stored credential
(standing in for the bcrypt hash). -/
structure UserRec where
  id : Nat
  email : String
  password : String
  name : String
  role : String
  is_active : Bool
deriving DecidableEq, Repr

/-- Row of the `products` table. -/
structure ProductRec where
  id : Nat
  user_id : Nat
  name : String
  unit : String
  retail_price : ℚ
  wholesale_price : ℚ
  created_at : DateTime
  updated_at : DateTime
deriving DecidableEq, Repr

/-- Row of the `warehouses` table. -/
structure WarehouseRec where
  id : Nat
  user_id : Nat
  name : String
  created_at : DateTime
  updated_at : DateTime
deriving DecidableEq, Repr

/-- Row of the `inventory` table. -/
structure InventoryRec where
  id : Nat
  user_id : Nat
  warehouse_id : Nat
  product_id : Nat
  quantity : ℚ
  date : DateTime
  created_at : DateTime
deriving DecidableEq, Repr

/-- Row of the `sales` table (nullable columns are `Option`s). -/
structure SaleRec where
  id : Nat
  user_id : Nat
  date : DateTime
  type : String
  customer_name : Option String
  shop_name : Option String
  shop_address : Option String
  contact_number : Option String
  product_id : Option Nat
  quantity : Option ℚ
  unit_price : Option ℚ
  total : ℚ
  payment_method : Option String
  notes : Option String
  created_at : DateTime
deriving DecidableEq, Repr

/-- Row of the `expenses` table. -/
structure ExpenseRec where
  id : Nat
  user_id : Nat
  date : DateTime
  category : String
  description : Option String
  amount : ℚ
  vendor : Option String
  payment_method : Option String
  created_at : DateTime
deriving DecidableEq, Repr

/-- Row of the `subscriptions` table.  `supply_days` is the stored
comma-separated string. -/
structure SubscriptionRec where
  id : Nat
  user_id : Nat
  customer_name : String
  phone : Option String
  email : Option String
  address : Option String
  product_id : Nat
  quantity : Option ℚ
  frequency : Option String
  supply_days : String
  start_date : Option DateTime
  end_date : Option DateTime
  status : String
  created_at : DateTime
deriving DecidableEq, Repr

/-- The relational store the handlers operate on. -/
structure Store where
  users : List UserRec
  products : List ProductRec
  warehouses : List WarehouseRec
  inventory : List InventoryRec
  sales : List SaleRec
  expenses : List ExpenseRec
  subscriptions : List SubscriptionRec
deriving DecidableEq, Repr

/-- The `supply_days` entry of `Subscription.to_dict`:
`self.supply_days.split(',') if self.supply_days else []`. -/
def SubscriptionRec.to_dict_supply_days (s : SubscriptionRec) : List String :=
  if s.supply_days ≠ "" then pySplit ',' s.supply_days else []

/-- JSON body of `POST /api/auth/login`. -/
structure LoginReq where
  email : Option String
  password : Option String
deriving DecidableEq, Repr

/-- Handler `login`: 400 on missing email/password, 401 when the user is absent or
the password check fails, 403 when the account is inactive, else 200. -/
def login (s : Store) (data : Option LoginReq) : Nat :=
  match data with
  | none => 400
  | some d =>
    if !(truthyStr d.email && truthyStr d.password) then 400
    else
      match s.users.find? (fun u => u.email == d.email.getD "") with
      | none => 401
      | some u =>
        if !(u.password == d.password.getD "") then 401
        else if !u.is_active then 403
        else 200

/-- JSON body of product create/update routes. -/
structure ProductReq where
  name : Option String
  unit : Option String
  retail_price : Option ℚ
  wholesale_price : Option ℚ
deriving DecidableEq, Repr

/-- Handler `create_product`: 400 unless `name`, `retail_price` and
`wholesale_price` are all truthy, else insert and 201. -/
def create_product (s : Store) (uid : Nat) (data : Option ProductReq) (now : DateTime) :
    Nat × Store × Option ProductRec :=
  match data with
  | none => (400, s, none)
  | some d =>
    if !(truthyStr d.name && truthyNum d.retail_price && truthyNum d.wholesale_price) then
      (400, s, none)
    else
      let p : ProductRec :=
        { id := nextId (s.products.map (·.id)), user_id := uid,
          name := d.name.getD "", unit := d.unit.getD "box",
          retail_price := d.retail_price.getD 0,
          wholesale_price := d.wholesale_price.getD 0,
          created_at := now, updated_at := now }
      (201, { s with products := s.products ++ [p] }, some p)

/-- Handler `update_product`: find by `(id, user_id)`, 404 if absent, else update
the present fields (`data.get(k, old)`) and refresh `updated_at`. -/
def update_product (s : Store) (uid pid : Nat) (data : ProductReq) (now : DateTime) :
    Nat × Store :=
  match s.products.find? (fun p => p.id == pid && p.user_id == uid) with
  | none => (404, s)
  | some _ =>
    let ps := updateFirst (fun p => p.id == pid && p.user_id == uid)
      (fun p =>
        { p with name := data.name.getD p.name, unit := data.unit.getD p.unit,
                 retail_price := data.retail_price.getD p.retail_price,
                 wholesale_price := data.wholesale_price.getD p.wholesale_price,
                 updated_at := now }) s.products
    (200, { s with products := ps })

/-- Handler `delete_product`: find by `(id, user_id)`, 404 if absent, else delete
that row. -/
def delete_product (s : Store) (uid pid : Nat) : Nat × Store :=
  match s.products.find? (fun p => p.id == pid && p.user_id == uid) with
  | none => (404, s)
  | some _ =>
    let ps := eraseFirst (fun p => p.id == pid && p.user_id == uid) s.products
    (200, { s with products := ps })

/-- JSON body of warehouse create/update routes. -/
structure WarehouseReq where
  name : Option String
deriving DecidableEq, Repr

/-- Handler `create_warehouse`: 400 unless `name` is truthy, else insert and 201. -/
def create_warehouse (s : Store) (uid : Nat) (data : Option WarehouseReq) (now : DateTime) :
    Nat × Store × Option WarehouseRec :=
  match data with
  | none => (400, s, none)
  | some d =>
    if !truthyStr d.name then (400, s, none)
    else
      let w : WarehouseRec :=
        { id := nextId (s.warehouses.map (·.id)), user_id := uid,
          name := d.name.getD "", created_at := now, updated_at := now }
      (201, { s with warehouses := s.warehouses ++ [w] }, some w)

/-- Handler `update_warehouse`: find by `(id, user_id)`, 404 if absent, else set
the name (`data.get('name', old)`) and refresh `updated_at`. -/
def update_warehouse (s : Store) (uid wid : Nat) (data : WarehouseReq) (now : DateTime) :
    Nat × Store :=
  match s.warehouses.find? (fun w => w.id == wid && w.user_id == uid) with
  | none => (404, s)
  | some _ =>
    let ws := updateFirst (fun w => w.id == wid && w.user_id == uid)
      (fun w => { w with name := data.name.getD w.name, updated_at := now })
      s.warehouses
    (200, { s with warehouses := ws })

/-- Handler `delete_warehouse`: find by `(id, user_id)`, 404 if absent; else bulk
delete `Inventory.query.filter_by(warehouse_id=warehouse_id)` (note: not
filtered by `user_id`) and delete the warehouse row. -/
def delete_warehouse (s : Store) (uid wid : Nat) : Nat × Store :=
  match s.warehouses.find? (fun w => w.id == wid && w.user_id == uid) with
  | none => (404, s)
  | some _ =>
    (200, { s with
      inventory := s.inventory.filter (fun i => !(i.warehouse_id == wid)),
      warehouses := eraseFirst (fun w => w.id == wid && w.user_id == uid) s.warehouses })

/-- JSON body of inventory create/update routes. -/
structure InventoryReq where
  warehouse_id : Option Nat
  product_id : Option Nat
  quantity : Option ℚ
deriving DecidableEq, Repr

/-- Predicate of the `create_inventory` existence check:
`filter_by(user_id=..., warehouse_id=..., product_id=...)`. -/
def invMatch (uid wid pid : Nat) (i : InventoryRec) : Bool :=
  i.user_id == uid && i.warehouse_id == wid && i.product_id == pid

/-- Handler `create_inventory`: 400 unless `warehouse_id`, `product_id` and
`quantity` are all truthy; if a row for the `(user, warehouse, product)`
triple already exists, add the quantity to it, refresh its date and return
200; else insert a new row and return 201. -/
def create_inventory (s : Store) (uid : Nat) (data : Option InventoryReq) (now : DateTime) :
    Nat × Store × Option InventoryRec :=
  match data with
  | none => (400, s, none)
  | some d =>
    if !(truthyNat d.warehouse_id && truthyNat d.product_id && truthyNum d.quantity) then
      (400, s, none)
    else
      let wid := d.warehouse_id.getD 0
      let pid := d.product_id.getD 0
      let q := d.quantity.getD 0
      match s.inventory.find? (invMatch uid wid pid) with
      | some r =>
        let inv := updateFirst (invMatch uid wid pid)
          (fun i => { i with quantity := i.quantity + q, date := now }) s.inventory
        (200, { s with inventory := inv },
          some { r with quantity := r.quantity + q, date := now })
      | none =>
        let row : InventoryRec :=
          { id := nextId (s.inventory.map (·.id)), user_id := uid,
            warehouse_id := wid, product_id := pid, quantity := q,
            date := now, created_at := now }
        (201, { s with inventory := s.inventory ++ [row] }, some row)

/-- Handler `update_inventory`: find by `(id, user_id)`, 404 if absent, else set
`quantity` (`data.get('quantity', old)`). -/
def update_inventory (s : Store) (uid iid : Nat) (data : InventoryReq) : Nat × Store :=
  match s.inventory.find? (fun i => i.id == iid && i.user_id == uid) with
  | none => (404, s)
  | some _ =>
    let inv := updateFirst (fun i => i.id == iid && i.user_id == uid)
      (fun i => { i with quantity := data.quantity.getD i.quantity }) s.inventory
    (200, { s with inventory := inv })

/-- Handler `delete_inventory`: find by `(id, user_id)`, 404 if absent, else
delete that row. -/
def delete_inventory (s : Store) (uid iid : Nat) : Nat × Store :=
  match s.inventory.find? (fun i => i.id == iid && i.user_id == uid) with
  | none => (404, s)
  | some _ =>
    let inv := eraseFirst (fun i => i.id == iid && i.user_id == uid) s.inventory
    (200, { s with inventory := inv })

/-- JSON body of sale create/update routes. -/
structure SaleReq where
  date : Option DateTime
  type : Option String
  customer_name : Option String
  shop_name : Option String
  shop_address : Option String
  contact_number : Option String
  product_id : Option Nat
  quantity : Option ℚ
  unit_price : Option ℚ
  total : Option ℚ
  payment_method : Option String
  notes : Option String
deriving DecidableEq, Repr

/-- Handler `create_sale`: 400 unless `type` and `total` are truthy, else insert
(date defaults to now when absent) and 201. -/
def create_sale (s : Store) (uid : Nat) (data : Option SaleReq) (now : DateTime) :
    Nat × Store × Option SaleRec :=
  match data with
  | none => (400, s, none)
  | some d =>
    if !(truthyStr d.type && truthyNum d.total) then (400, s, none)
    else
      let row : SaleRec :=
        { id := nextId (s.sales.map (·.id)), user_id := uid,
          date := d.date.getD now, type := d.type.getD "",
          customer_name := d.customer_name, shop_name := d.shop_name,
          shop_address := d.shop_address, contact_number := d.contact_number,
          product_id := d.product_id, quantity := d.quantity,
          unit_price := d.unit_price, total := d.total.getD 0,
          payment_method := d.payment_method, notes := d.notes,
          created_at := now }
      (201, { s with sales := s.sales ++ [row] }, some row)

/-- Handler `update_sale`: find by `(id, user_id)`, 404 if absent; else update only
`customer_name`, `shop_name`, `quantity` and `total`
(`data.get(k, old)` for each) — every other column is left as it was. -/
def update_sale (s : Store) (uid sid : Nat) (data : SaleReq) : Nat × Store :=
  match s.sales.find? (fun x => x.id == sid && x.user_id == uid) with
  | none => (404, s)
  | some _ =>
    let ss := updateFirst (fun x => x.id == sid && x.user_id == uid)
      (fun x =>
        { x with customer_name := data.customer_name.or x.customer_name,
                 shop_name := data.shop_name.or x.shop_name,
                 quantity := data.quantity.or x.quantity,
                 total := data.total.getD x.total }) s.sales
    (200, { s with sales := ss })

/-- Handler `delete_sale`: find by `(id, user_id)`, 404 if absent, else delete
that row. -/
def delete_sale (s : Store) (uid sid : Nat) : Nat × Store :=
  match s.sales.find? (fun x => x.id == sid && x.user_id == uid) with
  | none => (404, s)
  | some _ =>
    let ss := eraseFirst (fun x => x.id == sid && x.user_id == uid) s.sales
    (200, { s with sales := ss })

/-- JSON body of expense create route. -/
structure ExpenseReq where
  date : Option DateTime
  category : Option String
  description : Option String
  amount : Option ℚ
  vendor : Option String
  payment_method : Option String
deriving DecidableEq, Repr

/-- Handler `create_expense`: 400 unless `category` and `amount` are truthy, else
insert (date defaults to now when absent) and 201. -/
def create_expense (s : Store) (uid : Nat) (data : Option ExpenseReq) (now : DateTime) :
    Nat × Store × Option ExpenseRec :=
  match data with
  | none => (400, s, none)
  | some d =>
    if !(truthyStr d.category && truthyNum d.amount) then (400, s, none)
    else
      let row : ExpenseRec :=
        { id := nextId (s.expenses.map (·.id)), user_id := uid,
          date := d.date.getD now, category := d.category.getD "",
          description := d.description, amount := d.amount.getD 0,
          vendor := d.vendor, payment_method := d.payment_method,
          created_at := now }
      (201, { s with expenses := s.expenses ++ [row] }, some row)

/-- Handler `delete_expense`: find by `(id, user_id)`, 404 if absent, else delete
that row. -/
def delete_expense (s : Store) (uid eid : Nat) : Nat × Store :=
  match s.expenses.find? (fun e => e.id == eid && e.user_id == uid) with
  | none => (404, s)
  | some _ =>
    let es := eraseFirst (fun e => e.id == eid && e.user_id == uid) s.expenses
    (200, { s with expenses := es })

/-- JSON body of subscription create route. -/
structure SubscriptionReq where
  customer_name : Option String
  phone : Option String
  email : Option String
  address : Option String
  product_id : Option Nat
  quantity : Option ℚ
  frequency : Option String
  supply_days : Option (List String)
deriving DecidableEq, Repr

/-- Handler `create_subscription`: 400 unless `customer_name` and `product_id` are
truthy; `supply_days` is stored as
`','.join(data['supply_days']) if data.get('supply_days') else ''`. -/
def create_subscription (s : Store) (uid : Nat) (data : Option SubscriptionReq) (now : DateTime) :
    Nat × Store × Option SubscriptionRec :=
  match data with
  | none => (400, s, none)
  | some d =>
    if !(truthyStr d.customer_name && truthyNat d.product_id) then (400, s, none)
    else
      let row : SubscriptionRec :=
        { id := nextId (s.subscriptions.map (·.id)), user_id := uid,
          customer_name := d.customer_name.getD "", phone := d.phone,
          email := d.email, address := d.address,
          product_id := d.product_id.getD 0, quantity := d.quantity,
          frequency := d.frequency,
          supply_days := if truthyList d.supply_days
            then String.intercalate "," (d.supply_days.getD []) else "",
          start_date := none, end_date := none,
          status := "Active", created_at := now }
      (201, { s with subscriptions := s.subscriptions ++ [row] }, some row)

/-- Handler `get_products`: all products with the caller's `user_id`. -/
def get_products (s : Store) (uid : Nat) : List ProductRec :=
  s.products.filter (fun p => p.user_id == uid)

/-- Handler `get_warehouses`: all warehouses with the caller's `user_id`. -/
def get_warehouses (s : Store) (uid : Nat) : List WarehouseRec :=
  s.warehouses.filter (fun w => w.user_id == uid)

/-- Handler `get_inventory`: all inventory rows with the caller's `user_id`. -/
def get_inventory (s : Store) (uid : Nat) : List InventoryRec :=
  s.inventory.filter (fun i => i.user_id == uid)

/-- Handler `get_warehouse_inventory`: inventory rows with the caller's `user_id`
and the requested `warehouse_id`. -/
def get_warehouse_inventory (s : Store) (uid wid : Nat) : List InventoryRec :=
  s.inventory.filter (fun i => i.user_id == uid && i.warehouse_id == wid)

/-- Handler `get_sales`: the caller's sales, `order_by(Sale.date.desc())`. -/
def get_sales (s : Store) (uid : Nat) : List SaleRec :=
  (s.sales.filter (fun x => x.user_id == uid)).mergeSort
    (fun a b => DateTime.ble b.date a.date)

/-- Handler `get_expenses`: the caller's expenses, `order_by(Expense.date.desc())`. -/
def get_expenses (s : Store) (uid : Nat) : List ExpenseRec :=
  (s.expenses.filter (fun e => e.user_id == uid)).mergeSort
    (fun a b => DateTime.ble b.date a.date)

/-- Handler `get_subscriptions`: all subscriptions with the caller's `user_id`. -/
def get_subscriptions (s : Store) (uid : Nat) : List SubscriptionRec :=
  s.subscriptions.filter (fun x => x.user_id == uid)

/-- Response body of `get_dashboard_analytics`. -/
structure Metrics where
  profit : ℚ
  sales_boxes : ℚ
  active_subscriptions : Nat
  monthly_expenses : ℚ
  total_revenue : ℚ
  sales_count : Nat
  expense_count : Nat
deriving DecidableEq, Repr

/-- Handler `get_dashboard_analytics`: window is the current month
(`date >= start_of_month`); revenue sums `total`, boxes sum truthy
quantities (`sum(s.quantity for s in sales if s.quantity)`), expenses sum
`amount`, profit is revenue minus expenses, and active subscriptions are
counted by status alone. -/
def get_dashboard_analytics (s : Store) (uid : Nat) (today : DateTime) : Metrics :=
  let start := startOfMonth today
  let sales := s.sales.filter (fun x => x.user_id == uid && DateTime.ble start x.date)
  let expenses := s.expenses.filter (fun e => e.user_id == uid && DateTime.ble start e.date)
  let subscriptions := s.subscriptions.filter
    (fun x => x.user_id == uid && x.status == "Active")
  let total_revenue := (sales.map (·.total)).sum
  let total_boxes := (sales.filterMap
    (fun x => match x.quantity with
      | some q => if q ≠ 0 then some q else none
      | none => none)).sum
  let total_expenses := (expenses.map (·.amount)).sum
  let profit := total_revenue - total_expenses
  { profit := profit, sales_boxes := total_boxes,
    active_subscriptions := subscriptions.length,
    monthly_expenses := total_expenses, total_revenue := total_revenue,
    sales_count := sales.length, expense_count := expenses.length }

/-! ### List helper lemmas -/

theorem updateFirst_length (p : α → Bool) (f : α → α) (l : List α) :
    (updateFirst p f l).length = l.length := by
  induction l with
  | nil => rfl
  | cons x xs ih =>
    by_cases hx : p x <;> simp [updateFirst, hx, ih]

theorem mem_updateFirst_of_find? (p : α → Bool) (f : α → α) (l : List α) (r : α)
    (h : l.find? p = some r) : f r ∈ updateFirst p f l := by
  induction l with
  | nil => simp [List.find?] at h
  | cons x xs ih =>
    by_cases hx : p x
    · rw [List.find?_cons_of_pos _ hx] at h
      cases h
      simp [updateFirst, hx]
    · rw [List.find?_cons_of_neg _ hx] at h
      simp only [updateFirst, hx, if_neg, Bool.false_eq_true, not_false_iff, ite_false,
        List.mem_cons]
      exact Or.inr (ih h)

theorem mem_updateFirst_iff (p : α → Bool) (f : α → α) (l : List α) (r : α)
    (h1 : ∀ x, p x = true → r ≠ x) (h2 : ∀ x, p x = true → r ≠ f x) :
    r ∈ updateFirst p f l ↔ r ∈ l := by
  induction l with
  | nil => simp [updateFirst]
  | cons x xs ih =>
    by_cases hx : p x
    · simp only [updateFirst, hx, ite_true, List.mem_cons]
      constructor
      · rintro (h | h)
        · exact absurd h (h2 x hx)
        · exact Or.inr h
      · rintro (h | h)
        · exact absurd h (h1 x hx)
        · exact Or.inr h
    · simp [updateFirst, hx, ih]

theorem mem_eraseFirst_iff (p : α → Bool) (l : List α) (r : α)
    (h : ∀ x, p x = true → r ≠ x) :
    r ∈ eraseFirst p l ↔ r ∈ l := by
  induction l with
  | nil => simp [eraseFirst]
  | cons x xs ih =>
    by_cases hx : p x
    · simp only [eraseFirst, hx, ite_true, List.mem_cons]
      exact ⟨Or.inr, fun hc => hc.elim (fun he => absurd he (h x hx)) id⟩
    · simp [eraseFirst, hx, ih]

theorem updateFirst_append_of_forall_not (p : α → Bool) (f : α → α) (l : List α) (a : α)
    (h : ∀ x ∈ l, ¬ p x = true) (ha : p a = true) :
    updateFirst p f (l ++ [a]) = l ++ [f a] := by
  induction l with
  | nil => simp [updateFirst, ha]
  | cons x xs ih =>
    have hx : ¬ p x = true := h x (List.mem_cons_self x xs)
    simp only [List.cons_append, updateFirst, hx, ite_false, Bool.false_eq_true, if_neg,
      not_false_iff]
    exact congrArg (List.cons x) (ih fun y hy => h y (List.mem_cons_of_mem x hy))

theorem find?_append_singleton_of_none (p : α → Bool) (l : List α) (a : α)
    (h : l.find? p = none) (ha : p a = true) :
    (l ++ [a]).find? p = some a := by
  rw [List.find?_append, h]
  simp [List.find?, ha]

theorem find?_id_owner_eq_none (idf uf : α → Nat) (l : List α)
    (hnd : (l.map idf).Nodup) (r : α) (hr : r ∈ l) (rid uid : Nat)
    (hid : idf r = rid) (hu : uf r ≠ uid) :
    l.find? (fun x => idf x == rid && uf x == uid) = none := by
  rw [List.find?_eq_none]
  intro x hx
  simp only [Bool.and_eq_true, beq_iff_eq, not_and]
  intro hxid
  have hxr : x = r := List.inj_on_of_nodup_map hnd hx hr (by rw [hxid, hid])
  rw [hxr]
  exact hu

/-! ### Claim theorems -/

/-- C4: for every account and every store state, the dashboard's `profit`
metric equals its `total_revenue` metric minus its expense-total metric
(the §4.4 `total_expenses` value, serialized under the JSON key
`monthly_expenses`), and when there are zero in-window sales and zero
in-window expenses the profit is 0. -/
theorem dashboard_profit_eq_revenue_sub_expenses (s : Store) (uid : Nat) (today : DateTime) :
    (get_dashboard_analytics s uid today).profit =
      (get_dashboard_analytics s uid today).total_revenue -
        (get_dashboard_analytics s uid today).monthly_expenses ∧
    ((get_dashboard_analytics s uid today).sales_count = 0 →
      (get_dashboard_analytics s uid today).expense_count = 0 →
      (get_dashboard_analytics s uid today).profit = 0) := by
  constructor
  · rfl
  · intro hs he
    have hsales : (s.sales.filter
        (fun x => x.user_id == uid && DateTime.ble (startOfMonth today) x.date)) = [] :=
      List.length_eq_zero.mp hs
    have hexp : (s.expenses.filter
        (fun e => e.user_id == uid && DateTime.ble (startOfMonth today) e.date)) = [] :=
      List.length_eq_zero.mp he
    simp [get_dashboard_analytics, hsales, hexp]

/-- Closed witness for the zero-sales/zero-expenses branch of
`dashboard_profit_eq_revenue_sub_expenses` on the empty store. -/
theorem dashboard_profit_eq_revenue_sub_expenses_witness :
    (get_dashboard_analytics ⟨[], [], [], [], [], [], []⟩ 1 ⟨2026, 10, 12, 0, 0, 0⟩).profit
      = 0 :=
  (dashboard_profit_eq_revenue_sub_expenses ⟨[], [], [], [], [], [], []⟩ 1
      ⟨2026, 10, 12, 0, 0, 0⟩).2 rfl rfl

/-- Store of spec §8 example 7: two October sales (total 100 with quantity
4, total 50 with no quantity) and one October expense (amount 30), all
owned by account 1. -/
def exampleStore : Store :=
  { users := [], products := [], warehouses := [], inventory := [],
    sales :=
      [ { id := 1, user_id := 1, date := ⟨2026, 10, 5, 9, 0, 0⟩, type := "retail",
          customer_name := some "Asha", shop_name := none, shop_address := none,
          contact_number := none, product_id := none, quantity := some 4,
          unit_price := some 25, total := 100, payment_method := none, notes := none,
          created_at := ⟨2026, 10, 5, 9, 0, 0⟩ },
        { id := 2, user_id := 1, date := ⟨2026, 10, 6, 9, 0, 0⟩, type := "wholesale",
          customer_name := none, shop_name := some "Green Mart", shop_address := none,
          contact_number := none, product_id := none, quantity := none,
          unit_price := none, total := 50, payment_method := none, notes := none,
          created_at := ⟨2026, 10, 6, 9, 0, 0⟩ } ],
    expenses :=
      [ { id := 1, user_id := 1, date := ⟨2026, 10, 7, 0, 0, 0⟩, category := "Supplies",
          description := none, amount := 30, vendor := none, payment_method := none,
          created_at := ⟨2026, 10, 7, 0, 0, 0⟩ } ],
    subscriptions := [] }

/-- C5: on the §8 example store, the dashboard returns total_revenue 150,
sales_boxes 4, the expense total 30 (JSON key `monthly_expenses`), profit
120, sales_count 2 and expense_count 1; the sale with absent quantity
contributes 0 to sales_boxes rather than causing an error. -/
theorem dashboard_example_metrics :
    get_dashboard_analytics exampleStore 1 ⟨2026, 10, 12, 0, 0, 0⟩ =
      { profit := 120, sales_boxes := 4, active_subscriptions := 0,
        monthly_expenses := 30, total_revenue := 150, sales_count := 2,
        expense_count := 1 } := by
  simp only [get_dashboard_analytics, exampleStore, startOfMonth, DateTime.ble,
    List.filter, List.filterMap, List.map, Metrics.mk.injEq]
  norm_num

/-- C1: inventory create with a (warehouse, product) pair whose row already
exists under the caller's account adds the requested quantity to that row,
refreshes its stock date and returns the updated row with 200; with no such
row it inserts a new row and returns 201; and creating quantity `q` then
`q2` for the same triple starting from a store without that triple yields
exactly one matching row, with quantity `q + q2`, with statuses 201 then
200 (the spec's 5-then-3-gives-8 instance is the witness). -/
theorem inventory_create_merge_or_insert
    (s : Store) (uid wid pid : Nat) (q q2 : ℚ) (now now2 : DateTime)
    (hw : wid ≠ 0) (hp : pid ≠ 0) (hq : q ≠ 0) (hq2 : q2 ≠ 0) :
    (∀ r, s.inventory.find? (invMatch uid wid pid) = some r →
      (create_inventory s uid (some ⟨some wid, some pid, some q⟩) now).1 = 200 ∧
      (create_inventory s uid (some ⟨some wid, some pid, some q⟩) now).2.2 =
        some { r with quantity := r.quantity + q, date := now } ∧
      { r with quantity := r.quantity + q, date := now } ∈
        (create_inventory s uid (some ⟨some wid, some pid, some q⟩) now).2.1.inventory ∧
      ((create_inventory s uid (some ⟨some wid, some pid, some q⟩) now).2.1.inventory).length
        = s.inventory.length) ∧
    (s.inventory.find? (invMatch uid wid pid) = none →
      (create_inventory s uid (some ⟨some wid, some pid, some q⟩) now).1 = 201 ∧
      (∃ r, (create_inventory s uid (some ⟨some wid, some pid, some q⟩) now).2.2 = some r ∧
        r ∈ (create_inventory s uid (some ⟨some wid, some pid, some q⟩) now).2.1.inventory ∧
        r.user_id = uid ∧ r.warehouse_id = wid ∧ r.product_id = pid ∧
        r.quantity = q ∧ r.date = now) ∧
      ((create_inventory s uid (some ⟨some wid, some pid, some q⟩) now).2.1.inventory).length
        = s.inventory.length + 1) ∧
    (s.inventory.find? (invMatch uid wid pid) = none →
      (create_inventory
          (create_inventory s uid (some ⟨some wid, some pid, some q⟩) now).2.1
          uid (some ⟨some wid, some pid, some q2⟩) now2).1 = 200 ∧
      ∃ r, ((create_inventory
          (create_inventory s uid (some ⟨some wid, some pid, some q⟩) now).2.1
          uid (some ⟨some wid, some pid, some q2⟩) now2).2.1.inventory).filter
            (invMatch uid wid pid) = [r] ∧ r.quantity = q + q2) := by
  refine ⟨?_, ?_, ?_⟩
  · intro r hr
    have hred : create_inventory s uid (some ⟨some wid, some pid, some q⟩) now =
        (200, Store.mk s.users s.products s.warehouses
            (updateFirst (invMatch uid wid pid)
              (fun i => { i with quantity := i.quantity + q, date := now }) s.inventory)
            s.sales s.expenses s.subscriptions,
          some { r with quantity := r.quantity + q, date := now }) := by
      simp [create_inventory, truthyNat, truthyNum, hw, hp, hq, hr]
    rw [hred]
    exact ⟨rfl, rfl,
      mem_updateFirst_of_find? (invMatch uid wid pid)
        (fun i => { i with quantity := i.quantity + q, date := now }) s.inventory r hr,
      updateFirst_length _ _ _⟩
  · intro hnone
    have hred : create_inventory s uid (some ⟨some wid, some pid, some q⟩) now =
        (201, Store.mk s.users s.products s.warehouses
            (s.inventory ++ [⟨nextId (s.inventory.map (·.id)), uid, wid, pid, q, now, now⟩])
            s.sales s.expenses s.subscriptions,
          some ⟨nextId (s.inventory.map (·.id)), uid, wid, pid, q, now, now⟩) := by
      simp [create_inventory, truthyNat, truthyNum, hw, hp, hq, hnone]
    rw [hred]
    refine ⟨rfl, ⟨⟨nextId (s.inventory.map (·.id)), uid, wid, pid, q, now, now⟩,
      rfl, by simp, rfl, rfl, rfl, rfl, rfl⟩, by simp⟩
  · intro hnone
    have hred1 : (create_inventory s uid (some ⟨some wid, some pid, some q⟩) now).2.1 =
        Store.mk s.users s.products s.warehouses
          (s.inventory ++ [⟨nextId (s.inventory.map (·.id)), uid, wid, pid, q, now, now⟩])
          s.sales s.expenses s.subscriptions := by
      simp [create_inventory, truthyNat, truthyNum, hw, hp, hq, hnone]
    set row : InventoryRec :=
      ⟨nextId (s.inventory.map (·.id)), uid, wid, pid, q, now, now⟩ with hrow
    have hprow : invMatch uid wid pid row = true := by simp [invMatch, hrow]
    have hfind2 : (s.inventory ++ [row]).find? (invMatch uid wid pid) = some row :=
      find?_append_singleton_of_none _ _ _ hnone hprow
    have hall : ∀ x ∈ s.inventory, ¬ invMatch uid wid pid x = true :=
      List.find?_eq_none.mp hnone
    have hupd : updateFirst (invMatch uid wid pid)
        (fun i => { i with quantity := i.quantity + q2, date := now2 })
        (s.inventory ++ [row]) =
        s.inventory ++ [{ row with quantity := row.quantity + q2, date := now2 }] :=
      updateFirst_append_of_forall_not _ _ _ _ hall hprow
    have hred2 : create_inventory
        (Store.mk s.users s.products s.warehouses (s.inventory ++ [row])
          s.sales s.expenses s.subscriptions) uid
        (some ⟨some wid, some pid, some q2⟩) now2 =
        (200, Store.mk s.users s.products s.warehouses
            (updateFirst (invMatch uid wid pid)
              (fun i => { i with quantity := i.quantity + q2, date := now2 })
              (s.inventory ++ [row]))
            s.sales s.expenses s.subscriptions,
          some { row with quantity := row.quantity + q2, date := now2 }) := by
      simp [create_inventory, truthyNat, truthyNum, hw, hp, hq2, hfind2]
    rw [hred1, hred2]
    refine ⟨rfl, { row with quantity := row.quantity + q2, date := now2 }, ?_, by simp [hrow]⟩
    show List.filter (invMatch uid wid pid) (updateFirst (invMatch uid wid pid)
        (fun i => { i with quantity := i.quantity + q2, date := now2 })
        (s.inventory ++ [row])) = _
    rw [hupd, List.filter_append, List.filter_eq_nil_iff.mpr hall]
    simp [invMatch, hrow]


/-- Closed witness for `inventory_create_merge_or_insert`: on an empty
store, creating quantity 5 then quantity 3 for (account 1, warehouse 1,
product 1) returns 201 then 200 and leaves exactly one matching row with
quantity 8. -/
theorem inventory_create_merge_or_insert_witness :
    (create_inventory ⟨[], [], [], [], [], [], []⟩ 1
        (some ⟨some 1, some 1, some (5 : ℚ)⟩) ⟨2026, 10, 12, 9, 0, 0⟩).1 = 201 ∧
    (create_inventory
        (create_inventory ⟨[], [], [], [], [], [], []⟩ 1
          (some ⟨some 1, some 1, some (5 : ℚ)⟩) ⟨2026, 10, 12, 9, 0, 0⟩).2.1 1
        (some ⟨some 1, some 1, some (3 : ℚ)⟩) ⟨2026, 10, 12, 10, 0, 0⟩).1 = 200 ∧
    ∃ r, ((create_inventory
        (create_inventory ⟨[], [], [], [], [], [], []⟩ 1
          (some ⟨some 1, some 1, some (5 : ℚ)⟩) ⟨2026, 10, 12, 9, 0, 0⟩).2.1 1
        (some ⟨some 1, some 1, some (3 : ℚ)⟩) ⟨2026, 10, 12, 10, 0, 0⟩).2.1.inventory).filter
          (invMatch 1 1 1) = [r] ∧ r.quantity = 8 := by
  have h := inventory_create_merge_or_insert ⟨[], [], [], [], [], [], []⟩ 1 1 1 5 3
    ⟨2026, 10, 12, 9, 0, 0⟩ ⟨2026, 10, 12, 10, 0, 0⟩
    (by decide) (by decide) (by norm_num) (by norm_num)
  refine ⟨(h.2.1 rfl).1, (h.2.2 rfl).1, ?_⟩
  obtain ⟨r, hr, hq⟩ := (h.2.2 rfl).2
  exact ⟨r, hr, by rw [hq]; norm_num⟩


theorem mem_eraseFirst_id_ne (idf : α → Nat) (i : Nat) (p : α → Bool) (l : List α)
    (hnd : (l.map idf).Nodup) (hp : ∀ x, p x = true → idf x = i)
    (hfind : ∃ r, l.find? p = some r) :
    ∀ x ∈ eraseFirst p l, idf x ≠ i := by
  induction l with
  | nil => simp [eraseFirst]
  | cons a l2 ih =>
    rw [List.map_cons, List.nodup_cons] at hnd
    obtain ⟨hna, hnd2⟩ := hnd
    by_cases hpa : p a
    · have hai : idf a = i := hp a hpa
      intro x hx
      simp only [eraseFirst, hpa, ite_true] at hx
      intro hxi
      exact hna (hai ▸ hxi ▸ List.mem_map_of_mem idf hx)
    · obtain ⟨r, hr⟩ := hfind
      rw [List.find?_cons_of_neg _ hpa] at hr
      have hrmem : r ∈ l2 := List.mem_of_find?_eq_some hr
      have hri : idf r = i := hp r (List.find?_some hr)
      intro x hx
      simp only [eraseFirst, hpa, Bool.false_eq_true, not_false_iff, ite_false,
        List.mem_cons] at hx
      rcases hx with rfl | hx2
      · intro hai
        exact hna (hai ▸ hri ▸ List.mem_map_of_mem idf hrmem)
      · exact ih hnd2 ⟨r, hr⟩ x hx2

/-- C3: a successful warehouse delete removes the warehouse and every
inventory row referencing it (whatever their number), so afterward zero
inventory rows and zero warehouse rows carry that warehouse id. -/
theorem warehouse_delete_cascade (s : Store) (uid wid : Nat)
    (hnd : (s.warehouses.map (·.id)).Nodup)
    (hs : (delete_warehouse s uid wid).1 = 200) :
    (∀ i ∈ (delete_warehouse s uid wid).2.inventory, i.warehouse_id ≠ wid) ∧
    (∀ w ∈ (delete_warehouse s uid wid).2.warehouses, w.id ≠ wid) := by
  rcases hfw : s.warehouses.find? (fun w => w.id == wid && w.user_id == uid) with _ | w0
  · rw [delete_warehouse, hfw] at hs
    exact absurd hs (by norm_num)
  · rw [delete_warehouse, hfw] at hs ⊢
    constructor
    · intro i hi
      have := (List.mem_filter.mp hi).2
      simpa using this
    · exact mem_eraseFirst_id_ne (·.id) wid _ s.warehouses hnd
        (fun x hx => by simpa using (Bool.and_eq_true _ _ |>.mp hx).1) ⟨w0, hfw⟩

/-- Store for the cascade witness: warehouse 1 of account 1 with two
inventory rows referencing it (one owned by account 2). -/
def cascadeStore : Store :=
  { users := [], products := [],
    warehouses :=
      [ { id := 1, user_id := 1, name := "Main", created_at := ⟨2026, 9, 1, 0, 0, 0⟩,
          updated_at := ⟨2026, 9, 1, 0, 0, 0⟩ } ],
    inventory :=
      [ { id := 1, user_id := 1, warehouse_id := 1, product_id := 1, quantity := 5,
          date := ⟨2026, 9, 2, 0, 0, 0⟩, created_at := ⟨2026, 9, 2, 0, 0, 0⟩ },
        { id := 2, user_id := 2, warehouse_id := 1, product_id := 1, quantity := 7,
          date := ⟨2026, 9, 3, 0, 0, 0⟩, created_at := ⟨2026, 9, 3, 0, 0, 0⟩ } ],
    sales := [], expenses := [], subscriptions := [] }

/-- Closed witness for `warehouse_delete_cascade` on `cascadeStore`. -/
theorem warehouse_delete_cascade_witness :
    (∀ i ∈ (delete_warehouse cascadeStore 1 1).2.inventory, i.warehouse_id ≠ 1) ∧
    (∀ w ∈ (delete_warehouse cascadeStore 1 1).2.warehouses, w.id ≠ 1) :=
  warehouse_delete_cascade cascadeStore 1 1 (by simp [cascadeStore])
    (by simp [delete_warehouse, cascadeStore])


/-- C6: for every entity type with an update/delete route, a valid id owned
by a different account yields 404 (the same NotFound as for a nonexistent
id — no distinct forbidden status exists in the code) and leaves the store
unchanged; success is never returned. -/
theorem wrong_account_update_delete_not_found
    (s : Store) (uid bid rid : Nat) (hne : bid ≠ uid) :
    (∀ r ∈ s.products, r.id = rid → r.user_id = bid →
      (s.products.map (·.id)).Nodup →
      ∀ (d : ProductReq) (now : DateTime),
        update_product s uid rid d now = (404, s) ∧ delete_product s uid rid = (404, s)) ∧
    (∀ r ∈ s.warehouses, r.id = rid → r.user_id = bid →
      (s.warehouses.map (·.id)).Nodup →
      ∀ (d : WarehouseReq) (now : DateTime),
        update_warehouse s uid rid d now = (404, s) ∧
          delete_warehouse s uid rid = (404, s)) ∧
    (∀ r ∈ s.inventory, r.id = rid → r.user_id = bid →
      (s.inventory.map (·.id)).Nodup →
      ∀ (d : InventoryReq),
        update_inventory s uid rid d = (404, s) ∧ delete_inventory s uid rid = (404, s)) ∧
    (∀ r ∈ s.sales, r.id = rid → r.user_id = bid →
      (s.sales.map (·.id)).Nodup →
      ∀ (d : SaleReq),
        update_sale s uid rid d = (404, s) ∧ delete_sale s uid rid = (404, s)) ∧
    (∀ r ∈ s.expenses, r.id = rid → r.user_id = bid →
      (s.expenses.map (·.id)).Nodup →
      delete_expense s uid rid = (404, s)) := by
  refine ⟨?_, ?_, ?_, ?_, ?_⟩
  · intro r hr hid hu hnd d now
    have hnone : s.products.find? (fun p => p.id == rid && p.user_id == uid) = none :=
      find?_id_owner_eq_none (fun x => x.id) (fun x => x.user_id) s.products hnd r hr
        rid uid hid (by show r.user_id ≠ uid; rw [hu]; exact hne)
    exact ⟨by simp [update_product, hnone], by simp [delete_product, hnone]⟩
  · intro r hr hid hu hnd d now
    have hnone : s.warehouses.find? (fun w => w.id == rid && w.user_id == uid) = none :=
      find?_id_owner_eq_none (fun x => x.id) (fun x => x.user_id) s.warehouses hnd r hr
        rid uid hid (by show r.user_id ≠ uid; rw [hu]; exact hne)
    exact ⟨by simp [update_warehouse, hnone], by simp [delete_warehouse, hnone]⟩
  · intro r hr hid hu hnd d
    have hnone : s.inventory.find? (fun i => i.id == rid && i.user_id == uid) = none :=
      find?_id_owner_eq_none (fun x => x.id) (fun x => x.user_id) s.inventory hnd r hr
        rid uid hid (by show r.user_id ≠ uid; rw [hu]; exact hne)
    exact ⟨by simp [update_inventory, hnone], by simp [delete_inventory, hnone]⟩
  · intro r hr hid hu hnd d
    have hnone : s.sales.find? (fun x => x.id == rid && x.user_id == uid) = none :=
      find?_id_owner_eq_none (fun x => x.id) (fun x => x.user_id) s.sales hnd r hr
        rid uid hid (by show r.user_id ≠ uid; rw [hu]; exact hne)
    exact ⟨by simp [update_sale, hnone], by simp [delete_sale, hnone]⟩
  · intro r hr hid hu hnd
    have hnone : s.expenses.find? (fun e => e.id == rid && e.user_id == uid) = none :=
      find?_id_owner_eq_none (fun x => x.id) (fun x => x.user_id) s.expenses hnd r hr
        rid uid hid (by show r.user_id ≠ uid; rw [hu]; exact hne)
    simp [delete_expense, hnone]

/-- A fixed timestamp used by the concrete witnesses. -/
def t0 : DateTime := ⟨2026, 10, 12, 0, 0, 0⟩

/-- Store whose every table holds exactly one row with id 1 owned by
account 2, used to witness the wrong-account 404 behavior for caller 1. -/
def otherOwnerStore : Store :=
  { users := [],
    products :=
      [ { id := 1, user_id := 2, name := "Oyster", unit := "box",
          retail_price := 10, wholesale_price := 8, created_at := t0,
          updated_at := t0 } ],
    warehouses :=
      [ { id := 1, user_id := 2, name := "Main", created_at := t0,
          updated_at := t0 } ],
    inventory :=
      [ { id := 1, user_id := 2, warehouse_id := 1, product_id := 1,
          quantity := 5, date := t0, created_at := t0 } ],
    sales :=
      [ { id := 1, user_id := 2, date := t0, type := "retail",
          customer_name := none, shop_name := none, shop_address := none,
          contact_number := none, product_id := none, quantity := none,
          unit_price := none, total := 100, payment_method := none, notes := none,
          created_at := t0 } ],
    expenses :=
      [ { id := 1, user_id := 2, date := t0, category := "Feed",
          description := none, amount := 30, vendor := none, payment_method := none,
          created_at := t0 } ],
    subscriptions := [] }

/-- Closed witness for `wrong_account_update_delete_not_found` on
`otherOwnerStore`, caller account 1. -/
theorem wrong_account_update_delete_not_found_witness :
    update_product otherOwnerStore 1 1 ⟨none, none, none, none⟩ t0
        = (404, otherOwnerStore) ∧
    delete_product otherOwnerStore 1 1 = (404, otherOwnerStore) ∧
    update_warehouse otherOwnerStore 1 1 ⟨none⟩ t0 = (404, otherOwnerStore) ∧
    delete_warehouse otherOwnerStore 1 1 = (404, otherOwnerStore) ∧
    update_inventory otherOwnerStore 1 1 ⟨none, none, none⟩ = (404, otherOwnerStore) ∧
    delete_inventory otherOwnerStore 1 1 = (404, otherOwnerStore) ∧
    update_sale otherOwnerStore 1 1
        ⟨none, none, none, none, none, none, none, none, none, none, none, none⟩
        = (404, otherOwnerStore) ∧
    delete_sale otherOwnerStore 1 1 = (404, otherOwnerStore) ∧
    delete_expense otherOwnerStore 1 1 = (404, otherOwnerStore) := by
  have h := wrong_account_update_delete_not_found otherOwnerStore 1 2 1 (by decide)
  have hpm : (⟨1, 2, "Oyster", "box", 10, 8, t0, t0⟩ : ProductRec)
      ∈ otherOwnerStore.products := by simp [otherOwnerStore]
  have hwm : (⟨1, 2, "Main", t0, t0⟩ : WarehouseRec)
      ∈ otherOwnerStore.warehouses := by simp [otherOwnerStore]
  have him : (⟨1, 2, 1, 1, 5, t0, t0⟩ : InventoryRec)
      ∈ otherOwnerStore.inventory := by simp [otherOwnerStore]
  have hsm : (⟨1, 2, t0, "retail", none, none, none, none, none, none, none, 100,
      none, none, t0⟩ : SaleRec) ∈ otherOwnerStore.sales := by simp [otherOwnerStore]
  have hem : (⟨1, 2, t0, "Feed", none, 30, none, none, t0⟩ : ExpenseRec)
      ∈ otherOwnerStore.expenses := by simp [otherOwnerStore]
  refine ⟨?_, ?_, ?_, ?_, ?_, ?_, ?_, ?_, ?_⟩
  · exact (h.1 _ hpm rfl rfl (by simp [otherOwnerStore]) ⟨none, none, none, none⟩ t0).1
  · exact (h.1 _ hpm rfl rfl (by simp [otherOwnerStore]) ⟨none, none, none, none⟩ t0).2
  · exact (h.2.1 _ hwm rfl rfl (by simp [otherOwnerStore]) ⟨none⟩ t0).1
  · exact (h.2.1 _ hwm rfl rfl (by simp [otherOwnerStore]) ⟨none⟩ t0).2
  · exact (h.2.2.1 _ him rfl rfl (by simp [otherOwnerStore]) ⟨none, none, none⟩).1
  · exact (h.2.2.1 _ him rfl rfl (by simp [otherOwnerStore]) ⟨none, none, none⟩).2
  · exact (h.2.2.2.1 _ hsm rfl rfl (by simp [otherOwnerStore])
      ⟨none, none, none, none, none, none, none, none, none, none, none, none⟩).1
  · exact (h.2.2.2.1 _ hsm rfl rfl (by simp [otherOwnerStore])
      ⟨none, none, none, none, none, none, none, none, none, none, none, none⟩).2
  · exact h.2.2.2.2 _ hem rfl rfl (by simp [otherOwnerStore])


/-- C8: for every account, creating a subscription with supply_days
["Mon","Thu"] succeeds (201) and the created row's `to_dict` supply_days
serialization reads back exactly ["Mon","Thu"] (stored as the delimited
string "Mon,Thu"); creating with unset supply_days reads back as []. -/
theorem subscription_supply_days_roundtrip (s : Store) (uid : Nat) (now : DateTime) :
    ((create_subscription s uid
        (some ⟨some "Asha", none, none, none, some 1, none, none, some ["Mon", "Thu"]⟩)
        now).1 = 201 ∧
      ∃ sub, (create_subscription s uid
        (some ⟨some "Asha", none, none, none, some 1, none, none, some ["Mon", "Thu"]⟩)
        now).2.2 = some sub ∧ sub.to_dict_supply_days = ["Mon", "Thu"]) ∧
    ((create_subscription s uid
        (some ⟨some "Asha", none, none, none, some 1, none, none, none⟩) now).1 = 201 ∧
      ∃ sub, (create_subscription s uid
        (some ⟨some "Asha", none, none, none, some 1, none, none, none⟩) now).2.2
        = some sub ∧ sub.to_dict_supply_days = []) := by
  refine ⟨⟨rfl, ⟨_, rfl, ?_⟩⟩, ⟨rfl, ⟨_, rfl, ?_⟩⟩⟩
  · show SubscriptionRec.to_dict_supply_days _ = _
    simp only [SubscriptionRec.to_dict_supply_days]
    decide
  · show SubscriptionRec.to_dict_supply_days _ = _
    simp only [SubscriptionRec.to_dict_supply_days]
    decide


/-- C9: a successful sale update rewrites only `customer_name`,
`shop_name`, `quantity` and `total`; every other column of the sale keeps
its previous value no matter what the request carries, and any of the four
updatable fields not supplied retains its previous value. -/
theorem sale_update_frame (s : Store) (uid sid : Nat) (d : SaleReq) (r : SaleRec)
    (hfind : s.sales.find? (fun x => x.id == sid && x.user_id == uid) = some r) :
    (update_sale s uid sid d).1 = 200 ∧
    ∃ r2, r2 ∈ (update_sale s uid sid d).2.sales ∧
      r2.id = r.id ∧ r2.user_id = r.user_id ∧ r2.date = r.date ∧ r2.type = r.type ∧
      r2.shop_address = r.shop_address ∧ r2.contact_number = r.contact_number ∧
      r2.product_id = r.product_id ∧ r2.unit_price = r.unit_price ∧
      r2.payment_method = r.payment_method ∧ r2.notes = r.notes ∧
      r2.created_at = r.created_at ∧
      r2.customer_name = d.customer_name.or r.customer_name ∧
      r2.shop_name = d.shop_name.or r.shop_name ∧
      r2.quantity = d.quantity.or r.quantity ∧
      r2.total = d.total.getD r.total ∧
      (d.customer_name = none → r2.customer_name = r.customer_name) ∧
      (d.shop_name = none → r2.shop_name = r.shop_name) ∧
      (d.quantity = none → r2.quantity = r.quantity) ∧
      (d.total = none → r2.total = r.total) := by
  have hred : update_sale s uid sid d =
      (200, Store.mk s.users s.products s.warehouses s.inventory
        (updateFirst (fun x => x.id == sid && x.user_id == uid)
          (fun x => { x with customer_name := d.customer_name.or x.customer_name,
                             shop_name := d.shop_name.or x.shop_name,
                             quantity := d.quantity.or x.quantity,
                             total := d.total.getD x.total }) s.sales)
        s.expenses s.subscriptions) := by
    simp [update_sale, hfind]
  rw [hred]
  refine ⟨rfl, { r with customer_name := d.customer_name.or r.customer_name, shop_name := d.shop_name.or r.shop_name, quantity := d.quantity.or r.quantity, total := d.total.getD r.total }, ?_, rfl, rfl, rfl, rfl, rfl, rfl, rfl, rfl, rfl, rfl, rfl, rfl, rfl, rfl, rfl, ?_, ?_, ?_, ?_⟩
  · exact mem_updateFirst_of_find? _ _ s.sales r hfind
  · intro h; simp [h]
  · intro h; simp [h]
  · intro h; simp [h]
  · intro h; simp [h]

/-- Closed witness for `sale_update_frame`: updating sale 1 of account 2 in
`otherOwnerStore` with a request that also carries values for
non-updatable fields (date, type, product_id, unit_price, payment method,
notes) returns 200 and leaves those fields unchanged. -/
theorem sale_update_frame_witness :
    (update_sale otherOwnerStore 2 1
      ⟨some ⟨2027, 1, 1, 0, 0, 0⟩, some "wholesale", some "Bela", none, some "addr",
        some "99", some 9, some 2, some 99, some 123, some "cash", some "note"⟩).1
      = 200 ∧
    ∃ r2, r2 ∈ (update_sale otherOwnerStore 2 1
      ⟨some ⟨2027, 1, 1, 0, 0, 0⟩, some "wholesale", some "Bela", none, some "addr",
        some "99", some 9, some 2, some 99, some 123, some "cash", some "note"⟩).2.sales ∧
      r2.date = t0 ∧ r2.type = "retail" ∧ r2.shop_address = none ∧
      r2.contact_number = none ∧ r2.product_id = none ∧ r2.unit_price = none ∧
      r2.payment_method = none ∧ r2.notes = none ∧
      r2.customer_name = some "Bela" ∧ r2.shop_name = none ∧
      r2.quantity = some 2 ∧ r2.total = 123 := by
  have h := sale_update_frame otherOwnerStore 2 1
    ⟨some ⟨2027, 1, 1, 0, 0, 0⟩, some "wholesale", some "Bela", none, some "addr",
      some "99", some 9, some 2, some 99, some 123, some "cash", some "note"⟩
    ⟨1, 2, t0, "retail", none, none, none, none, none, none, none, 100, none, none, t0⟩
    (by simp [otherOwnerStore])
  obtain ⟨hst, r2, hmem, hf⟩ := h
  exact ⟨hst, r2, hmem, hf.2.2.1, hf.2.2.2.1, hf.2.2.2.2.1, hf.2.2.2.2.2.1,
    hf.2.2.2.2.2.2.1, hf.2.2.2.2.2.2.2.1, hf.2.2.2.2.2.2.2.2.1,
    hf.2.2.2.2.2.2.2.2.2.1, hf.2.2.2.2.2.2.2.2.2.2.2.1,
    hf.2.2.2.2.2.2.2.2.2.2.2.2.1, hf.2.2.2.2.2.2.2.2.2.2.2.2.2.1,
    hf.2.2.2.2.2.2.2.2.2.2.2.2.2.2.1⟩

/-- C10: login evaluates the credential check before the active flag: an
unknown email gives 401, a wrong password gives 401 even when the account
is inactive, and 403 is only reachable when the stored credential matches
and the account is inactive. -/
theorem login_checks_credentials_before_active (s : Store) (e p : String)
    (he : e ≠ "") (hp : p ≠ "") :
    (s.users.find? (fun u => u.email == e) = none →
      login s (some ⟨some e, some p⟩) = 401) ∧
    (∀ u, s.users.find? (fun u2 => u2.email == e) = some u → u.password ≠ p →
      login s (some ⟨some e, some p⟩) = 401) ∧
    (∀ u, s.users.find? (fun u2 => u2.email == e) = some u →
      login s (some ⟨some e, some p⟩) = 403 → u.password = p ∧ u.is_active = false) := by
  refine ⟨?_, ?_, ?_⟩
  · intro hnone
    simp [login, truthyStr, he, hp, hnone]
  · intro u hu hpw
    simp [login, truthyStr, he, hp, hu, hpw]
  · intro u hu hlogin
    by_cases hpw : u.password = p
    · by_cases hact : u.is_active
      · have h200 : login s (some ⟨some e, some p⟩) = 200 := by
          simp [login, truthyStr, he, hp, hu, hpw, hact]
        rw [h200] at hlogin
        exact absurd hlogin (by norm_num)
      · exact ⟨hpw, by simpa using hact⟩
    · have h401 : login s (some ⟨some e, some p⟩) = 401 := by
        simp [login, truthyStr, he, hp, hu, hpw]
      rw [h401] at hlogin
      exact absurd hlogin (by norm_num)

/-- Closed witness for `login_checks_credentials_before_active`: an
inactive account with a wrong password gets 401, and with the right
password gets 403 with the credential-match facts. -/
theorem login_checks_credentials_before_active_witness :
    login (Store.mk [⟨1, "a@b.c", "pw", "A", "Owner", false⟩] [] [] [] [] [] [])
        (some ⟨some "a@b.c", some "xx"⟩) = 401 ∧
    ((⟨1, "a@b.c", "pw", "A", "Owner", false⟩ : UserRec).password = "pw" ∧
      (⟨1, "a@b.c", "pw", "A", "Owner", false⟩ : UserRec).is_active = false) := by
  constructor
  · exact (login_checks_credentials_before_active
        (Store.mk [⟨1, "a@b.c", "pw", "A", "Owner", false⟩] [] [] [] [] [] [])
        "a@b.c" "xx" (by decide) (by decide)).2.1
      ⟨1, "a@b.c", "pw", "A", "Owner", false⟩ (by simp) (by decide)
  · exact (login_checks_credentials_before_active
        (Store.mk [⟨1, "a@b.c", "pw", "A", "Owner", false⟩] [] [] [] [] [] [])
        "a@b.c" "pw" (by decide) (by decide)).2.2
      ⟨1, "a@b.c", "pw", "A", "Owner", false⟩ (by simp) (by decide)


theorem truthyStr_iff (o : Option String) :
    truthyStr o = true ↔ ∃ v, o = some v ∧ v ≠ "" := by
  cases o <;> simp [truthyStr]

theorem truthyNum_iff (o : Option ℚ) :
    truthyNum o = true ↔ ∃ v, o = some v ∧ v ≠ 0 := by
  cases o <;> simp [truthyNum]

/-- C7 counterexample: a product-create request in which all three required
fields are present but `retail_price` is 0 is rejected with 400 (Python's
`not data.get('retail_price')` treats 0 as missing) and inserts nothing,
contradicting the claim that any request with the three fields present —
including price 0 — yields 201. -/
theorem create_product_zero_price_counterexample :
    (create_product ⟨[], [], [], [], [], [], []⟩ 1
        (some ⟨some "Button", none, some 0, some 5⟩) t0).1 = 400 ∧
    (create_product ⟨[], [], [], [], [], [], []⟩ 1
        (some ⟨some "Button", none, some 0, some 5⟩) t0).2.1
      = ⟨[], [], [], [], [], [], []⟩ ∧
    (create_product ⟨[], [], [], [], [], [], []⟩ 1
        (some ⟨some "Button", none, some 0, some 5⟩) t0).1 ≠ 201 := by
  refine ⟨?_, ?_, ?_⟩ <;> norm_num [create_product, truthyStr, truthyNum]

/-- C7 (amended): product create returns 400 iff the body is absent or any
of `name`, `retail_price`, `wholesale_price` is absent or falsy (empty
name, zero price); when all three are present and truthy — i.e. nonempty
name and nonzero prices — it inserts the product and returns 201 with the
entity. -/
theorem create_product_validation (s : Store) (uid : Nat) (data : Option ProductReq)
    (now : DateTime) :
    ((create_product s uid data now).1 = 400 ↔
      ¬ ∃ d nm rp wp, data = some d ∧ d.name = some nm ∧ nm ≠ "" ∧
        d.retail_price = some rp ∧ rp ≠ 0 ∧ d.wholesale_price = some wp ∧ wp ≠ 0) ∧
    (∀ d nm rp wp, data = some d → d.name = some nm → nm ≠ "" →
      d.retail_price = some rp → rp ≠ 0 → d.wholesale_price = some wp → wp ≠ 0 →
      (create_product s uid data now).1 = 201 ∧
      ∃ pr, (create_product s uid data now).2.2 = some pr ∧
        pr ∈ (create_product s uid data now).2.1.products ∧
        pr.user_id = uid ∧ pr.name = nm ∧ pr.retail_price = rp ∧
        pr.wholesale_price = wp) := by
  constructor
  · cases data with
    | none => simp [create_product]
    | some d0 =>
      by_cases hg : (truthyStr d0.name && truthyNum d0.retail_price
          && truthyNum d0.wholesale_price) = true
      · have h201 : (create_product s uid (some d0) now).1 = 201 := by
          simp [create_product, hg]
        rw [h201]
        constructor
        · intro h
          exact absurd h (by norm_num)
        · intro hnex
          exfalso
          apply hnex
          rw [Bool.and_eq_true, Bool.and_eq_true] at hg
          obtain ⟨⟨hn, hr⟩, hw⟩ := hg
          obtain ⟨nm, hnm, hnm2⟩ := (truthyStr_iff d0.name).mp hn
          obtain ⟨rp, hrp, hrp2⟩ := (truthyNum_iff d0.retail_price).mp hr
          obtain ⟨wp, hwp, hwp2⟩ := (truthyNum_iff d0.wholesale_price).mp hw
          exact ⟨d0, nm, rp, wp, rfl, hnm, hnm2, hrp, hrp2, hwp, hwp2⟩
      · have hg2 : (truthyStr d0.name && truthyNum d0.retail_price
            && truthyNum d0.wholesale_price) = false := by
          cases hb : (truthyStr d0.name && truthyNum d0.retail_price
              && truthyNum d0.wholesale_price)
          · rfl
          · exact absurd hb hg
        have h400 : (create_product s uid (some d0) now).1 = 400 := by
          simp [create_product, hg2]
        rw [h400]
        constructor
        · intro _
          rintro ⟨d, nm, rp, wp, hd, hnm, hnm2, hrp, hrp2, hwp, hwp2⟩
          injection hd with hd
          subst hd
          apply hg
          rw [Bool.and_eq_true, Bool.and_eq_true]
          exact ⟨⟨(truthyStr_iff _).mpr ⟨nm, hnm, hnm2⟩,
            (truthyNum_iff _).mpr ⟨rp, hrp, hrp2⟩⟩,
            (truthyNum_iff _).mpr ⟨wp, hwp, hwp2⟩⟩
        · intro _
          rfl
  · intro d0 nm rp wp hdata hnm hnm2 hrp hrp2 hwp hwp2
    subst hdata
    have hg : (truthyStr d0.name && truthyNum d0.retail_price
        && truthyNum d0.wholesale_price) = true := by
      rw [Bool.and_eq_true, Bool.and_eq_true]
      exact ⟨⟨(truthyStr_iff _).mpr ⟨nm, hnm, hnm2⟩,
        (truthyNum_iff _).mpr ⟨rp, hrp, hrp2⟩⟩,
        (truthyNum_iff _).mpr ⟨wp, hwp, hwp2⟩⟩
    have hred : create_product s uid (some d0) now =
        (201, Store.mk s.users
          (s.products ++ [⟨nextId (s.products.map (·.id)), uid, d0.name.getD "", d0.unit.getD "box", d0.retail_price.getD 0, d0.wholesale_price.getD 0, now, now⟩])
          s.warehouses s.inventory s.sales s.expenses s.subscriptions,
          some ⟨nextId (s.products.map (·.id)), uid, d0.name.getD "", d0.unit.getD "box", d0.retail_price.getD 0, d0.wholesale_price.getD 0, now, now⟩) := by
      simp [create_product, hg]
    rw [hred]
    refine ⟨rfl, ⟨nextId (s.products.map (·.id)), uid, d0.name.getD "", d0.unit.getD "box", d0.retail_price.getD 0, d0.wholesale_price.getD 0, now, now⟩, rfl, by simp, rfl, ?_, ?_, ?_⟩
    · show d0.name.getD "" = nm
      rw [hnm]
      rfl
    · show d0.retail_price.getD 0 = rp
      rw [hrp]
      rfl
    · show d0.wholesale_price.getD 0 = wp
      rw [hwp]
      rfl

/-- Closed witness for `create_product_validation`: a request with
nonempty name and nonzero prices yields 201 and the inserted entity. -/
theorem create_product_validation_witness :
    (create_product ⟨[], [], [], [], [], [], []⟩ 1
        (some ⟨some "Oyster", none, some 10, some 8⟩) t0).1 = 201 ∧
    ∃ pr, (create_product ⟨[], [], [], [], [], [], []⟩ 1
        (some ⟨some "Oyster", none, some 10, some 8⟩) t0).2.2 = some pr ∧
      pr ∈ (create_product ⟨[], [], [], [], [], [], []⟩ 1
        (some ⟨some "Oyster", none, some 10, some 8⟩) t0).2.1.products ∧
      pr.user_id = 1 ∧ pr.name = "Oyster" ∧ pr.retail_price = 10 ∧
      pr.wholesale_price = 8 :=
  (create_product_validation ⟨[], [], [], [], [], [], []⟩ 1
      (some ⟨some "Oyster", none, some 10, some 8⟩) t0).2
    ⟨some "Oyster", none, some 10, some 8⟩ "Oyster" 10 8 rfl rfl (by decide) rfl
    (by norm_num) rfl (by norm_num)

theorem mem_updateFirst_user (uf : α → Nat) (uid : Nat) (p : α → Bool) (f : α → α)
    (l : List α) (hpu : ∀ x, p x = true → uf x = uid) (hfu : ∀ x, uf (f x) = uf x)
    (r : α) (hr : uf r ≠ uid) : r ∈ updateFirst p f l ↔ r ∈ l :=
  mem_updateFirst_iff p f l r
    (fun x hx he => hr (by rw [he]; exact hpu x hx))
    (fun x hx he => hr (by rw [he, hfu x]; exact hpu x hx))

theorem mem_eraseFirst_user (uf : α → Nat) (uid : Nat) (p : α → Bool)
    (l : List α) (hpu : ∀ x, p x = true → uf x = uid)
    (r : α) (hr : uf r ≠ uid) : r ∈ eraseFirst p l ↔ r ∈ l :=
  mem_eraseFirst_iff p l r (fun x hx he => hr (by rw [he]; exact hpu x hx))

theorem mem_append_singleton_user (uf : α → Nat) (uid : Nat) (l : List α) (a : α)
    (ha : uf a = uid) (r : α) (hr : uf r ≠ uid) : r ∈ l ++ [a] ↔ r ∈ l := by
  simp only [List.mem_append, List.mem_singleton]
  constructor
  · rintro (h | rfl)
    · exact h
    · exact absurd ha hr
  · exact Or.inl


/-- C2 (amended): every repository read returns only rows owned by the
caller, and every write leaves rows owned by other accounts untouched —
with the single exception of the warehouse-delete inventory cascade, which
(on success) deletes exactly the inventory rows referencing the deleted
warehouse regardless of their owning account. -/
theorem account_scoping_amended (s : Store) (uid : Nat) :
    (∀ r ∈ get_products s uid, r.user_id = uid) ∧
    (∀ r ∈ get_warehouses s uid, r.user_id = uid) ∧
    (∀ r ∈ get_inventory s uid, r.user_id = uid) ∧
    (∀ wid, ∀ r ∈ get_warehouse_inventory s uid wid, r.user_id = uid) ∧
    (∀ r ∈ get_sales s uid, r.user_id = uid) ∧
    (∀ r ∈ get_expenses s uid, r.user_id = uid) ∧
    (∀ r ∈ get_subscriptions s uid, r.user_id = uid) ∧
    (∀ data now r, r.user_id ≠ uid →
      (r ∈ (create_product s uid data now).2.1.products ↔ r ∈ s.products)) ∧
    (∀ pid data now r, r.user_id ≠ uid →
      (r ∈ (update_product s uid pid data now).2.products ↔ r ∈ s.products)) ∧
    (∀ pid r, r.user_id ≠ uid →
      (r ∈ (delete_product s uid pid).2.products ↔ r ∈ s.products)) ∧
    (∀ data now r, r.user_id ≠ uid →
      (r ∈ (create_warehouse s uid data now).2.1.warehouses ↔ r ∈ s.warehouses)) ∧
    (∀ wid data now r, r.user_id ≠ uid →
      (r ∈ (update_warehouse s uid wid data now).2.warehouses ↔ r ∈ s.warehouses)) ∧
    (∀ wid r, r.user_id ≠ uid →
      (r ∈ (delete_warehouse s uid wid).2.warehouses ↔ r ∈ s.warehouses)) ∧
    (∀ wid r, (delete_warehouse s uid wid).1 = 200 →
      (r ∈ (delete_warehouse s uid wid).2.inventory ↔
        r ∈ s.inventory ∧ r.warehouse_id ≠ wid)) ∧
    (∀ wid, (delete_warehouse s uid wid).1 = 404 →
      (delete_warehouse s uid wid).2 = s) ∧
    (∀ data now r, r.user_id ≠ uid →
      (r ∈ (create_inventory s uid data now).2.1.inventory ↔ r ∈ s.inventory)) ∧
    (∀ iid data r, r.user_id ≠ uid →
      (r ∈ (update_inventory s uid iid data).2.inventory ↔ r ∈ s.inventory)) ∧
    (∀ iid r, r.user_id ≠ uid →
      (r ∈ (delete_inventory s uid iid).2.inventory ↔ r ∈ s.inventory)) ∧
    (∀ data now r, r.user_id ≠ uid →
      (r ∈ (create_sale s uid data now).2.1.sales ↔ r ∈ s.sales)) ∧
    (∀ sid data r, r.user_id ≠ uid →
      (r ∈ (update_sale s uid sid data).2.sales ↔ r ∈ s.sales)) ∧
    (∀ sid r, r.user_id ≠ uid →
      (r ∈ (delete_sale s uid sid).2.sales ↔ r ∈ s.sales)) ∧
    (∀ data now r, r.user_id ≠ uid →
      (r ∈ (create_expense s uid data now).2.1.expenses ↔ r ∈ s.expenses)) ∧
    (∀ eid r, r.user_id ≠ uid →
      (r ∈ (delete_expense s uid eid).2.expenses ↔ r ∈ s.expenses)) ∧
    (∀ data now r, r.user_id ≠ uid →
      (r ∈ (create_subscription s uid data now).2.1.subscriptions ↔
        r ∈ s.subscriptions)) := by
  refine ⟨?_, ?_, ?_, ?_, ?_, ?_, ?_, ?_, ?_, ?_, ?_, ?_, ?_, ?_, ?_, ?_, ?_, ?_,
    ?_, ?_, ?_, ?_, ?_, ?_⟩
  · intro r hr
    simpa using (List.mem_filter.mp hr).2
  · intro r hr
    simpa using (List.mem_filter.mp hr).2
  · intro r hr
    simpa using (List.mem_filter.mp hr).2
  · intro wid r hr
    have h2 : (r.user_id == uid && r.warehouse_id == wid) = true :=
      (List.mem_filter.mp hr).2
    exact eq_of_beq ((Bool.and_eq_true _ _).mp h2).1
  · intro r hr
    have hr2 := List.mem_mergeSort.mp hr
    simpa using (List.mem_filter.mp hr2).2
  · intro r hr
    have hr2 := List.mem_mergeSort.mp hr
    simpa using (List.mem_filter.mp hr2).2
  · intro r hr
    simpa using (List.mem_filter.mp hr).2
  · intro data now r hr
    cases data with
    | none => exact Iff.rfl
    | some d =>
      by_cases hg : (truthyStr d.name && truthyNum d.retail_price
          && truthyNum d.wholesale_price) = true
      · have hred : (create_product s uid (some d) now).2.1.products =
            s.products ++ [⟨nextId (s.products.map (·.id)), uid, d.name.getD "", d.unit.getD "box", d.retail_price.getD 0, d.wholesale_price.getD 0, now, now⟩] := by
          simp [create_product, hg]
        rw [hred]
        exact mem_append_singleton_user (·.user_id) uid _ _ rfl r hr
      · have hg2 := Bool.eq_false_iff.mpr hg
        have hred : (create_product s uid (some d) now).2.1.products = s.products := by
          simp [create_product, hg2]
        rw [hred]
  · intro pid data now r hr
    rcases hf : s.products.find? (fun p => p.id == pid && p.user_id == uid) with _ | p0
    · simp [update_product, hf]
    · have hred : (update_product s uid pid data now).2.products =
          updateFirst (fun p => p.id == pid && p.user_id == uid)
            (fun p => { p with name := data.name.getD p.name, unit := data.unit.getD p.unit, retail_price := data.retail_price.getD p.retail_price, wholesale_price := data.wholesale_price.getD p.wholesale_price, updated_at := now }) s.products := by
        simp [update_product, hf]
      rw [hred]
      refine mem_updateFirst_user (·.user_id) uid _ _ _ ?_ ?_ r hr
      · intro x hx
        exact eq_of_beq ((Bool.and_eq_true _ _).mp hx).2
      · intro x
        rfl
  · intro pid r hr
    rcases hf : s.products.find? (fun p => p.id == pid && p.user_id == uid) with _ | p0
    · simp [delete_product, hf]
    · have hred : (delete_product s uid pid).2.products =
          eraseFirst (fun p => p.id == pid && p.user_id == uid) s.products := by
        simp [delete_product, hf]
      rw [hred]
      exact mem_eraseFirst_user (·.user_id) uid _ _
        (fun x hx => eq_of_beq ((Bool.and_eq_true _ _).mp hx).2) r hr
  · intro data now r hr
    cases data with
    | none => exact Iff.rfl
    | some d =>
      by_cases hg : truthyStr d.name = true
      · have hred : (create_warehouse s uid (some d) now).2.1.warehouses =
            s.warehouses ++ [⟨nextId (s.warehouses.map (·.id)), uid, d.name.getD "", now, now⟩] := by
          simp [create_warehouse, hg]
        rw [hred]
        exact mem_append_singleton_user (·.user_id) uid _ _ rfl r hr
      · have hg2 := Bool.eq_false_iff.mpr hg
        have hred : (create_warehouse s uid (some d) now).2.1.warehouses
            = s.warehouses := by
          simp [create_warehouse, hg2]
        rw [hred]
  · intro wid data now r hr
    rcases hf : s.warehouses.find? (fun w => w.id == wid && w.user_id == uid) with _ | w0
    · simp [update_warehouse, hf]
    · have hred : (update_warehouse s uid wid data now).2.warehouses =
          updateFirst (fun w => w.id == wid && w.user_id == uid)
            (fun w => { w with name := data.name.getD w.name, updated_at := now })
            s.warehouses := by
        simp [update_warehouse, hf]
      rw [hred]
      refine mem_updateFirst_user (·.user_id) uid _ _ _ ?_ ?_ r hr
      · intro x hx
        exact eq_of_beq ((Bool.and_eq_true _ _).mp hx).2
      · intro x
        rfl
  · intro wid r hr
    rcases hf : s.warehouses.find? (fun w => w.id == wid && w.user_id == uid) with _ | w0
    · simp [delete_warehouse, hf]
    · have hred : (delete_warehouse s uid wid).2.warehouses =
          eraseFirst (fun w => w.id == wid && w.user_id == uid) s.warehouses := by
        simp [delete_warehouse, hf]
      rw [hred]
      exact mem_eraseFirst_user (·.user_id) uid _ _
        (fun x hx => eq_of_beq ((Bool.and_eq_true _ _).mp hx).2) r hr
  · intro wid r h200
    rcases hf : s.warehouses.find? (fun w => w.id == wid && w.user_id == uid) with _ | w0
    · simp [delete_warehouse, hf] at h200
    · have hred : (delete_warehouse s uid wid).2.inventory =
          s.inventory.filter (fun i => !(i.warehouse_id == wid)) := by
        simp [delete_warehouse, hf]
      rw [hred]
      simp [List.mem_filter]
  · intro wid h404
    rcases hf : s.warehouses.find? (fun w => w.id == wid && w.user_id == uid) with _ | w0
    · simp [delete_warehouse, hf]
    · simp [delete_warehouse, hf] at h404
  · intro data now r hr
    cases data with
    | none => exact Iff.rfl
    | some d =>
      by_cases hg : (truthyNat d.warehouse_id && truthyNat d.product_id
          && truthyNum d.quantity) = true
      · rcases hf : s.inventory.find?
            (invMatch uid (d.warehouse_id.getD 0) (d.product_id.getD 0)) with _ | r0
        · have hred : (create_inventory s uid (some d) now).2.1.inventory =
              s.inventory ++ [⟨nextId (s.inventory.map (·.id)), uid, d.warehouse_id.getD 0, d.product_id.getD 0, d.quantity.getD 0, now, now⟩] := by
            simp [create_inventory, hg, hf]
          rw [hred]
          exact mem_append_singleton_user (·.user_id) uid _ _ rfl r hr
        · have hred : (create_inventory s uid (some d) now).2.1.inventory =
              updateFirst (invMatch uid (d.warehouse_id.getD 0) (d.product_id.getD 0))
                (fun i => { i with quantity := i.quantity + d.quantity.getD 0, date := now }) s.inventory := by
            simp [create_inventory, hg, hf]
          rw [hred]
          refine mem_updateFirst_user (·.user_id) uid _ _ _ ?_ ?_ r hr
          · intro x hx
            exact eq_of_beq ((Bool.and_eq_true _ _).mp ((Bool.and_eq_true _ _).mp hx).1).1
          · intro x
            rfl
      · have hg2 := Bool.eq_false_iff.mpr hg
        have hred : (create_inventory s uid (some d) now).2.1.inventory
            = s.inventory := by
          simp [create_inventory, hg2]
        rw [hred]
  · intro iid data r hr
    rcases hf : s.inventory.find? (fun i => i.id == iid && i.user_id == uid) with _ | i0
    · simp [update_inventory, hf]
    · have hred : (update_inventory s uid iid data).2.inventory =
          updateFirst (fun i => i.id == iid && i.user_id == uid)
            (fun i => { i with quantity := data.quantity.getD i.quantity })
            s.inventory := by
        simp [update_inventory, hf]
      rw [hred]
      refine mem_updateFirst_user (·.user_id) uid _ _ _ ?_ ?_ r hr
      · intro x hx
        exact eq_of_beq ((Bool.and_eq_true _ _).mp hx).2
      · intro x
        rfl
  · intro iid r hr
    rcases hf : s.inventory.find? (fun i => i.id == iid && i.user_id == uid) with _ | i0
    · simp [delete_inventory, hf]
    · have hred : (delete_inventory s uid iid).2.inventory =
          eraseFirst (fun i => i.id == iid && i.user_id == uid) s.inventory := by
        simp [delete_inventory, hf]
      rw [hred]
      exact mem_eraseFirst_user (·.user_id) uid _ _
        (fun x hx => eq_of_beq ((Bool.and_eq_true _ _).mp hx).2) r hr
  · intro data now r hr
    cases data with
    | none => exact Iff.rfl
    | some d =>
      by_cases hg : (truthyStr d.type && truthyNum d.total) = true
      · have hred : (create_sale s uid (some d) now).2.1.sales =
            s.sales ++ [⟨nextId (s.sales.map (·.id)), uid, d.date.getD now, d.type.getD "", d.customer_name, d.shop_name, d.shop_address, d.contact_number, d.product_id, d.quantity, d.unit_price, d.total.getD 0, d.payment_method, d.notes, now⟩] := by
          simp [create_sale, hg]
        rw [hred]
        exact mem_append_singleton_user (·.user_id) uid _ _ rfl r hr
      · have hg2 := Bool.eq_false_iff.mpr hg
        have hred : (create_sale s uid (some d) now).2.1.sales = s.sales := by
          simp [create_sale, hg2]
        rw [hred]
  · intro sid data r hr
    rcases hf : s.sales.find? (fun x => x.id == sid && x.user_id == uid) with _ | x0
    · simp [update_sale, hf]
    · have hred : (update_sale s uid sid data).2.sales =
          updateFirst (fun x => x.id == sid && x.user_id == uid)
            (fun x => { x with customer_name := data.customer_name.or x.customer_name, shop_name := data.shop_name.or x.shop_name, quantity := data.quantity.or x.quantity, total := data.total.getD x.total }) s.sales := by
        simp [update_sale, hf]
      rw [hred]
      refine mem_updateFirst_user (·.user_id) uid _ _ _ ?_ ?_ r hr
      · intro x hx
        exact eq_of_beq ((Bool.and_eq_true _ _).mp hx).2
      · intro x
        rfl
  · intro sid r hr
    rcases hf : s.sales.find? (fun x => x.id == sid && x.user_id == uid) with _ | x0
    · simp [delete_sale, hf]
    · have hred : (delete_sale s uid sid).2.sales =
          eraseFirst (fun x => x.id == sid && x.user_id == uid) s.sales := by
        simp [delete_sale, hf]
      rw [hred]
      exact mem_eraseFirst_user (·.user_id) uid _ _
        (fun x hx => eq_of_beq ((Bool.and_eq_true _ _).mp hx).2) r hr
  · intro data now r hr
    cases data with
    | none => exact Iff.rfl
    | some d =>
      by_cases hg : (truthyStr d.category && truthyNum d.amount) = true
      · have hred : (create_expense s uid (some d) now).2.1.expenses =
            s.expenses ++ [⟨nextId (s.expenses.map (·.id)), uid, d.date.getD now, d.category.getD "", d.description, d.amount.getD 0, d.vendor, d.payment_method, now⟩] := by
          simp [create_expense, hg]
        rw [hred]
        exact mem_append_singleton_user (·.user_id) uid _ _ rfl r hr
      · have hg2 := Bool.eq_false_iff.mpr hg
        have hred : (create_expense s uid (some d) now).2.1.expenses = s.expenses := by
          simp [create_expense, hg2]
        rw [hred]
  · intro eid r hr
    rcases hf : s.expenses.find? (fun e => e.id == eid && e.user_id == uid) with _ | e0
    · simp [delete_expense, hf]
    · have hred : (delete_expense s uid eid).2.expenses =
          eraseFirst (fun e => e.id == eid && e.user_id == uid) s.expenses := by
        simp [delete_expense, hf]
      rw [hred]
      exact mem_eraseFirst_user (·.user_id) uid _ _
        (fun x hx => eq_of_beq ((Bool.and_eq_true _ _).mp hx).2) r hr
  · intro data now r hr
    cases data with
    | none => exact Iff.rfl
    | some d =>
      by_cases hg : (truthyStr d.customer_name && truthyNat d.product_id) = true
      · have hred : (create_subscription s uid (some d) now).2.1.subscriptions =
            s.subscriptions ++ [⟨nextId (s.subscriptions.map (·.id)), uid, d.customer_name.getD "", d.phone, d.email, d.address, d.product_id.getD 0, d.quantity, d.frequency, if truthyList d.supply_days then String.intercalate "," (d.supply_days.getD []) else "", none, none, "Active", now⟩] := by
          simp [create_subscription, hg]
        rw [hred]
        exact mem_append_singleton_user (·.user_id) uid _ _ rfl r hr
      · have hg2 := Bool.eq_false_iff.mpr hg
        have hred : (create_subscription s uid (some d) now).2.1.subscriptions
            = s.subscriptions := by
          simp [create_subscription, hg2]
        rw [hred]


/-- C2 counterexample: account 1 successfully deletes its warehouse 1 in
`cascadeStore`, and the cascade also deletes account 2's inventory row
(id 2) referencing that warehouse — so an operation invoked by account 1
does delete a row owned by a different account, refuting the claim for
the warehouse-delete cascade. -/
theorem account_scoping_counterexample :
    (delete_warehouse cascadeStore 1 1).1 = 200 ∧
    (⟨2, 2, 1, 1, 7, ⟨2026, 9, 3, 0, 0, 0⟩, ⟨2026, 9, 3, 0, 0, 0⟩⟩ : InventoryRec)
      ∈ cascadeStore.inventory ∧
    (⟨2, 2, 1, 1, 7, ⟨2026, 9, 3, 0, 0, 0⟩, ⟨2026, 9, 3, 0, 0, 0⟩⟩
      : InventoryRec).user_id ≠ 1 ∧
    (⟨2, 2, 1, 1, 7, ⟨2026, 9, 3, 0, 0, 0⟩, ⟨2026, 9, 3, 0, 0, 0⟩⟩ : InventoryRec)
      ∉ (delete_warehouse cascadeStore 1 1).2.inventory := by
  refine ⟨by simp [delete_warehouse, cascadeStore], ?_, by decide, ?_⟩
  · exact List.mem_cons_of_mem _ (List.mem_singleton_self _)
  · intro hmem
    simp [delete_warehouse, cascadeStore] at hmem

/-- Closed witness for `account_scoping_amended`: on `cascadeStore`,
account 2's inventory row survives account 1's warehouse delete exactly
when it does not reference the deleted warehouse (here it does, so it is
removed), and account 1's update of its own product in `otherOwnerStore`
leaves account 2's product membership unchanged. -/
theorem account_scoping_amended_witness :
    ((⟨2, 2, 1, 1, 7, ⟨2026, 9, 3, 0, 0, 0⟩, ⟨2026, 9, 3, 0, 0, 0⟩⟩ : InventoryRec)
        ∈ (delete_warehouse cascadeStore 1 1).2.inventory ↔
      (⟨2, 2, 1, 1, 7, ⟨2026, 9, 3, 0, 0, 0⟩, ⟨2026, 9, 3, 0, 0, 0⟩⟩ : InventoryRec)
        ∈ cascadeStore.inventory ∧
      (⟨2, 2, 1, 1, 7, ⟨2026, 9, 3, 0, 0, 0⟩, ⟨2026, 9, 3, 0, 0, 0⟩⟩
        : InventoryRec).warehouse_id ≠ 1) ∧
    ((⟨1, 2, "Oyster", "box", 10, 8, t0, t0⟩ : ProductRec)
        ∈ (update_product otherOwnerStore 1 1 ⟨some "X", none, none, none⟩ t0).2.products
      ↔ (⟨1, 2, "Oyster", "box", 10, 8, t0, t0⟩ : ProductRec)
        ∈ otherOwnerStore.products) := by
  constructor
  · exact (account_scoping_amended cascadeStore 1).2.2.2.2.2.2.2.2.2.2.2.2.2.1 1
      ⟨2, 2, 1, 1, 7, ⟨2026, 9, 3, 0, 0, 0⟩, ⟨2026, 9, 3, 0, 0, 0⟩⟩
      (by simp [delete_warehouse, cascadeStore])
  · exact (account_scoping_amended otherOwnerStore 1).2.2.2.2.2.2.2.2.1 1
      ⟨some "X", none, none, none⟩ t0 ⟨1, 2, "Oyster", "box", 10, 8, t0, t0⟩
      (by decide)


end CRM
